import Mathlib

set_option autoImplicit false

namespace A2A

/-- JSON values as produced by Python's `json.loads` on a request body.
Numbers are modelled as integers (every number appearing in this service is an
integer); `obj` holds the key-value pairs of a parsed object in source order.
`json.loads` yields dictionaries whose keys are unique at every level, so field
lists arising from parsing are key-unique; lookup takes the last binding, which
coincides with the overwrite semantics of `json.loads` on duplicate source keys. -/
inductive Json where
  | null
  | bool (b : Bool)
  | int (n : Int)
  | str (s : String)
  | arr (elems : List Json)
  | obj (fields : List (String × Json))

/-- Lookup of a key in an object's field list, taking the last binding
(the value `dict.get(k)` returns on the dictionary `json.loads` built). -/
def dictGet (fields : List (String × Json)) (k : String) : Option Json :=
  match fields with
  | [] => none
  | (k₁, v) :: rest =>
    match dictGet rest k with
    | some r => some r
    | none => if k₁ = k then some v else none

/-- Whether an object's field list has a binding for `k`, as Python's
`k in d` key-membership test on the corresponding dictionary. -/
def hasKey (fields : List (String × Json)) (k : String) : Bool :=
  fields.any (fun p => p.1 == k)

/-- Python truthiness (`bool(x)`) of a JSON-decoded value: `None`, `False`,
`0`, the empty string, the empty list and the empty dict are falsy. -/
def truthy : Json → Bool
  | .null => false
  | .bool b => b
  | .int n => n != 0
  | .str s => s != ""
  | .arr elems => !elems.isEmpty
  | .obj fields => !fields.isEmpty

/-- Uncaught Python exceptions the endpoint body can raise (the framework
turns these into a 500 response rather than a handler-produced one). -/
inductive PyExn where
  | typeError
  | attributeError

/-- Whether `needle` occurs as a contiguous substring of `hay`
(the semantics of Python's `in` on strings). -/
def isSubstr (needle hay : List Char) : Bool :=
  (List.range (hay.length + 1)).any (fun i => needle.isPrefixOf (hay.drop i))

/-- Python's `needle in v` for a string `needle` and a JSON-decoded value `v`:
key membership on dicts, element membership on lists, substring on strings;
a `TypeError` on values that support no membership test (`int`, `bool`, `None`). -/
def pyContainsStr (needle : String) : Json → Except PyExn Bool
  | .obj fields => .ok (hasKey fields needle)
  | .arr elems => .ok (elems.any (fun x => match x with | .str s => s == needle | _ => false))
  | .str s => .ok (isSubstr needle.toList s.toList)
  | _ => .error .typeError

/-- Single-quote character, used by Python's `repr` of strings. -/
def sq : String := String.singleton (Char.ofNat 39)

/-- Opening curly brace as a string. -/
def lcurl : String := String.singleton (Char.ofNat 123)

/-- Closing curly brace as a string. -/
def rcurl : String := String.singleton (Char.ofNat 125)

mutual
/-- Python's `repr` of a JSON-decoded value, which is what an f-string
interpolation `f"{v}"` produces for dicts and lists: single-quoted strings,
`None` / `True` / `False`, and `", "` / `": "` separators. Strings are
rendered without escape processing, which is exact for every string this
model ever formats (none contains a quote, backslash or control character). -/
def pyRepr : Json → String
  | .null => "None"
  | .bool true => "True"
  | .bool false => "False"
  | .int n => toString n
  | .str s => sq ++ s ++ sq
  | .arr elems => "[" ++ pyReprElems elems ++ "]"
  | .obj fields => lcurl ++ pyReprFields fields ++ rcurl

/-- Comma-separated `repr` of list elements. -/
def pyReprElems : List Json → String
  | [] => ""
  | [x] => pyRepr x
  | x :: y :: rest => pyRepr x ++ ", " ++ pyReprElems (y :: rest)

/-- Comma-separated `repr` of dict entries. -/
def pyReprFields : List (String × Json) → String
  | [] => ""
  | [(k, v)] => sq ++ k ++ sq ++ ": " ++ pyRepr v
  | (k, v) :: p :: rest => sq ++ k ++ sq ++ ": " ++ pyRepr v ++ ", " ++ pyReprFields (p :: rest)
end

/-- Python's `str` of a JSON-decoded value: the raw characters for a string,
`repr` rendering for everything else (for dicts, `str` and `repr` agree). -/
def pyStr : Json → String
  | .str s => s
  | .null => pyRepr .null
  | .bool b => pyRepr (.bool b)
  | .int n => pyRepr (.int n)
  | .arr elems => pyRepr (.arr elems)
  | .obj fields => pyRepr (.obj fields)

/-- Responses a handler can return: an immediate JSON body with a status code
(`JSONResponse`), or a streamed sequence of byte-string lines with a media
type (`StreamingResponse`). -/
inductive A2AResponse where
  | json (status : Nat) (body : Json)
  | stream (mediaType : String) (lines : List String)

/-- Body of the 400 response for an unparseable request body. -/
def invalidJsonError : Json :=
  Json.obj [("status", Json.str "error"), ("error", Json.str "Invalid JSON payload")]

/-- Error message for a missing or non-string `type` field, exactly the
source's text `Missing or invalid 'type' field`. -/
def missingTypeMsg : String :=
  "Missing or invalid " ++ sq ++ "type" ++ sq ++ " field"

/-- Body of the 400 response for a missing or non-string `type` field. -/
def missingTypeError : Json :=
  Json.obj [("status", Json.str "error"), ("error", Json.str missingTypeMsg)]

/-- One line yielded by the `stream_task_progress` generator for loop index
`i`: the f-string formats the dict literal with Python `str` and appends a
newline before encoding. -/
def progressLine (i : Nat) : String :=
  pyStr (Json.obj [("type", Json.str "task_progress"), ("progress", Json.int (i * 20))]) ++ "\n"

/-- Exact text of the generator's final yielded bytes literal (without the
trailing newline): a hand-written JSON result frame. -/
def resultDoneText : String :=
  "\x7b\"type\": \"result\", \"payload\": \x7b\"result\": \"done\"\x7d\x7d"

/-- Lines yielded by the `stream_task_progress` async generator: five
f-string-formatted progress dicts for `i` in `range(5)`, then the raw
result bytes literal. -/
def stream_task_progress : List String :=
  (List.range 5).map progressLine ++ [resultDoneText ++ "\n"]

/-- One line yielded by the `chunk_stream` inner generator for loop index `i`. -/
def chunkLine (i : Nat) : String :=
  pyStr (Json.obj [("type", Json.str "task_chunk"), ("chunk", Json.str ("partial_" ++ toString i))]) ++ "\n"

/-- Final line yielded by `chunk_stream`: the result dict, also formatted
with an f-string. -/
def chunkResultLine : String :=
  pyStr (Json.obj [("type", Json.str "result"), ("payload", Json.obj [("result", Json.str "final from chunk")])]) ++ "\n"

/-- Lines yielded by the `chunk_stream` async generator defined inside the
`task_chunk` branch: three chunk dicts for `i` in `range(3)`, then the
result dict. -/
def chunk_stream : List String :=
  (List.range 3).map chunkLine ++ [chunkResultLine]

/-- Dispatch of a validated envelope, mirroring the if-chain after the type
check in `a2a_endpoint`: `payload = body.get("payload", {})`; the
`task_request and payload.get("stream", False)` guard (whose attribute access
raises `AttributeError` when the payload is not a dict, and is skipped
entirely for other types by `and` short-circuiting); then the `task_chunk`,
`agent_event` and default echo branches. -/
def dispatch (fields : List (String × Json)) (msg_type : String) : Except PyExn A2AResponse :=
  let payload := (dictGet fields "payload").getD (Json.obj [])
  let streamFlag : Except PyExn Bool :=
    if msg_type = "task_request" then
      match payload with
      | Json.obj pfs => .ok (truthy ((dictGet pfs "stream").getD (Json.bool false)))
      | _ => .error .attributeError
    else .ok false
  match streamFlag with
  | .error e => .error e
  | .ok true => .ok (.stream "application/json" stream_task_progress)
  | .ok false =>
    if msg_type = "task_chunk" then
      .ok (.stream "application/json" chunk_stream)
    else if msg_type = "agent_event" then
      .ok (.json 200 (Json.obj [("status", Json.str "ok"), ("type", Json.str "agent_event"), ("event", payload)]))
    else
      .ok (.json 200 (Json.obj [("status", Json.str "ok"), ("type", Json.str msg_type), ("echo", Json.obj fields)]))

/-- Model of the `POST /api/a2a` handler. The argument is the outcome of
`await request.json()`: `none` when parsing raised (caught and answered with
the 400 invalid-JSON body), `some b` for the parsed value `b`. The guard
`"type" not in body or not isinstance(body.get("type"), str)` is evaluated
left to right with short-circuiting: the membership test raises `TypeError`
on non-container bodies, and `body.get` raises `AttributeError` on the
non-dict bodies (strings and lists) that pass the membership test. -/
def a2a_endpoint (body : Option Json) : Except PyExn A2AResponse :=
  match body with
  | none => .ok (.json 400 invalidJsonError)
  | some b =>
    match pyContainsStr "type" b with
    | .error e => .error e
    | .ok false => .ok (.json 400 missingTypeError)
    | .ok true =>
      match b with
      | Json.obj fields =>
        match (dictGet fields "type").getD Json.null with
        | Json.str msg_type => dispatch fields msg_type
        | _ => .ok (.json 400 missingTypeError)
      | _ => .error .attributeError

/-- Whitespace skipping for the JSON grammar (space, tab, newline, carriage
return). -/
def skipWs : List Char → List Char
  | [] => []
  | c :: cs => if c = ' ' ∨ c = '\t' ∨ c = '\n' ∨ c = '\r' then skipWs cs else c :: cs

/-- Resolution of a JSON string escape character (the `\uXXXX` form is not
supported and makes parsing fail; no string in this development uses it). -/
def escChar (c : Char) : Option Char :=
  if c = 'n' then some '\n'
  else if c = 't' then some '\t'
  else if c = 'r' then some '\r'
  else if c = 'b' then some (Char.ofNat 8)
  else if c = 'f' then some (Char.ofNat 12)
  else if c = '"' ∨ c = '\\' ∨ c = '/' then some c
  else none

/-- Parse the remainder of a JSON string after its opening quote, returning
the decoded characters and the text after the closing quote. -/
def parseStrBody : List Char → Option (List Char × List Char)
  | [] => none
  | c :: rest =>
    if c = '"' then some ([], rest)
    else if c = '\\' then
      match rest with
      | [] => none
      | e :: rest₁ =>
        match escChar e with
        | none => none
        | some ec =>
          match parseStrBody rest₁ with
          | none => none
          | some (s, r) => some (ec :: s, r)
    else
      match parseStrBody rest with
      | none => none
      | some (s, r) => some (c :: s, r)

/-- Numeric value of a decimal digit character. -/
def digitVal (c : Char) : Option Nat :=
  if '0' ≤ c ∧ c ≤ '9' then some (c.toNat - 48) else none

/-- Split a leading run of decimal digits off a character list. -/
def takeDigits : List Char → (List Nat × List Char)
  | [] => ([], [])
  | c :: rest =>
    match digitVal c with
    | none => ([], c :: rest)
    | some d =>
      let p := takeDigits rest
      (d :: p.1, p.2)

/-- Decimal value of a digit list, most significant first. -/
def digitsToNat (ds : List Nat) : Nat := ds.foldl (fun a d => a * 10 + d) 0

/-- Parse a JSON integer token (optional minus sign, then digits). -/
def parseIntToken : List Char → Option (Int × List Char)
  | [] => none
  | c :: rest =>
    if c = '-' then
      match takeDigits rest with
      | ([], _) => none
      | (ds, r) => some (-(digitsToNat ds : Int), r)
    else
      match takeDigits (c :: rest) with
      | ([], _) => none
      | (ds, r) => some ((digitsToNat ds : Int), r)

mutual
/-- Parse one JSON value from the front of the text. The `Nat` argument is
recursion fuel; `jsonParse` supplies more than any input can consume. The
grammar is the integer fragment of JSON (no fractional or exponent parts),
which covers every value this service emits. -/
def parseValue : Nat → List Char → Option (Json × List Char)
  | 0, _ => none
  | fuel + 1, cs =>
    match skipWs cs with
    | [] => none
    | c :: rest =>
      if c = Char.ofNat 123 then parseObjBody fuel rest
      else if c = '[' then parseArrBody fuel rest
      else if c = '"' then
        match parseStrBody rest with
        | none => none
        | some (s, r) => some (Json.str (String.mk s), r)
      else if ("null".toList).isPrefixOf (c :: rest) then some (Json.null, (c :: rest).drop 4)
      else if ("true".toList).isPrefixOf (c :: rest) then some (Json.bool true, (c :: rest).drop 4)
      else if ("false".toList).isPrefixOf (c :: rest) then some (Json.bool false, (c :: rest).drop 5)
      else
        match parseIntToken (c :: rest) with
        | none => none
        | some (n, r) => some (Json.int n, r)

/-- Parse the remainder of a JSON array after its opening bracket. -/
def parseArrBody : Nat → List Char → Option (Json × List Char)
  | 0, _ => none
  | fuel + 1, cs =>
    match skipWs cs with
    | [] => none
    | c :: rest =>
      if c = ']' then some (Json.arr [], rest)
      else
        match parseElems fuel (c :: rest) with
        | none => none
        | some (xs, r) => some (Json.arr xs, r)

/-- Parse one or more comma-separated array elements up to the closing
bracket. -/
def parseElems : Nat → List Char → Option (List Json × List Char)
  | 0, _ => none
  | fuel + 1, cs =>
    match parseValue fuel cs with
    | none => none
    | some (v, r) =>
      match skipWs r with
      | [] => none
      | c :: rest =>
        if c = ',' then
          match parseElems fuel rest with
          | none => none
          | some (xs, r₁) => some (v :: xs, r₁)
        else if c = ']' then some ([v], rest)
        else none

/-- Parse the remainder of a JSON object after its opening brace. -/
def parseObjBody : Nat → List Char → Option (Json × List Char)
  | 0, _ => none
  | fuel + 1, cs =>
    match skipWs cs with
    | [] => none
    | c :: rest =>
      if c = Char.ofNat 125 then some (Json.obj [], rest)
      else
        match parseMembers fuel (c :: rest) with
        | none => none
        | some (fs, r) => some (Json.obj fs, r)

/-- Parse one or more comma-separated object members up to the closing
brace. -/
def parseMembers : Nat → List Char → Option (List (String × Json) × List Char)
  | 0, _ => none
  | fuel + 1, cs =>
    match skipWs cs with
    | [] => none
    | c :: rest =>
      if c = '"' then
        match parseStrBody rest with
        | none => none
        | some (k, r) =>
          match skipWs r with
          | [] => none
          | c₁ :: rest₁ =>
            if c₁ = ':' then
              match parseValue fuel rest₁ with
              | none => none
              | some (v, r₁) =>
                match skipWs r₁ with
                | [] => none
                | c₂ :: rest₂ =>
                  if c₂ = ',' then
                    match parseMembers fuel rest₂ with
                    | none => none
                    | some (fs, r₂) => some ((String.mk k, v) :: fs, r₂)
                  else if c₂ = Char.ofNat 125 then some ([(String.mk k, v)], rest₂)
                  else none
            else none
      else none
end

/-- Parse a complete JSON text: one value, with only whitespace allowed
after it. -/
def jsonParse (s : String) : Option Json :=
  match parseValue (3 * s.length + 3) s.toList with
  | none => none
  | some (v, rest) => if (skipWs rest).isEmpty then some v else none

/-- Whether a string is a well-formed JSON text denoting an object. -/
def isJsonObjText (s : String) : Bool :=
  match jsonParse s with
  | some (Json.obj _) => true
  | _ => false

mutual
/-- JSON serialization of a value in the style of Python's `json.dumps`
defaults (`", "` and `": "` separators). String contents are emitted
verbatim; no string serialized in this development needs escaping. -/
def serializeJson : Json → String
  | .null => "null"
  | .bool true => "true"
  | .bool false => "false"
  | .int n => toString n
  | .str s => "\"" ++ s ++ "\""
  | .arr elems => "[" ++ serializeElems elems ++ "]"
  | .obj fields => lcurl ++ serializeFields fields ++ rcurl

/-- Comma-separated serialization of array elements. -/
def serializeElems : List Json → String
  | [] => ""
  | [x] => serializeJson x
  | x :: y :: rest => serializeJson x ++ ", " ++ serializeElems (y :: rest)

/-- Comma-separated serialization of object members. -/
def serializeFields : List (String × Json) → String
  | [] => ""
  | [(k, v)] => "\"" ++ k ++ "\": " ++ serializeJson v
  | (k, v) :: p :: rest => "\"" ++ k ++ "\": " ++ serializeJson v ++ ", " ++ serializeFields (p :: rest)
end

/-- The module-level `AGENT_CARD` dictionary. -/
def AGENT_CARD : Json :=
  Json.obj
    [("id", Json.str "pyagent1"),
     ("name", Json.str "Python Agent"),
     ("version", Json.str "0.1.0"),
     ("description", Json.str "Minimal Python A2A agent"),
     ("capabilities", Json.arr [Json.str "task_request", Json.str "agent_discovery"]),
     ("endpoints", Json.obj [("a2a", Json.str "/api/a2a"), ("agent_card", Json.str "/api/agent_card")]),
     ("authentication", Json.null)]

/-- Model of the `GET /api/agent_card` handler as a transformer of the
process-owned card state: it returns the card and leaves the state as is
(the handler body is a bare `return AGENT_CARD`). -/
def get_agent_card (st : Json) : Json × Json := (st, st)

/-- Model of the `POST /api/agent_card` handler: it echoes the submitted
card inside an acknowledgment object and performs no assignment to the
process-owned card. -/
def register_agent_card (st : Json) (card : Json) : Json × Json :=
  (st, Json.obj [("status", Json.str "ok"), ("card", card)])

/-- One request against the agent-card surface. -/
inductive CardOp where
  | get
  | post (card : Json)

/-- Run a sequence of agent-card requests against an initial card state,
threading the state and collecting the response of each request in order. -/
def runCard (st : Json) : List CardOp → List Json
  | [] => []
  | CardOp.get :: rest =>
    let p := get_agent_card st
    p.2 :: runCard p.1 rest
  | CardOp.post card :: rest =>
    let p := register_agent_card st card
    p.2 :: runCard p.1 rest

/-- Whether an envelope's `type` field (under the last-binding lookup of the
parsed dictionary) holds a string, the exact condition the endpoint's guard
`"type" in body and isinstance(body.get("type"), str)` tests on an object
body. -/
def typeFieldIsString (fields : List (String × Json)) : Bool :=
  match dictGet fields "type" with
  | some (Json.str _) => true
  | _ => false

/-- Response of a single agent-card request when the process-owned card is
`st`: `GET` returns the card itself, `POST` returns the acknowledgment that
echoes the submitted card. -/
def cardResponse (st : Json) : CardOp → Json
  | .get => st
  | .post card => Json.obj [("status", Json.str "ok"), ("card", card)]

/-- A successful last-binding lookup implies the key-membership test
succeeds. -/
theorem dictGet_hasKey {fields : List (String × Json)} {k : String}
    (h : (dictGet fields k).isSome) : hasKey fields k = true := by
  induction fields with
  | nil => simp [dictGet] at h
  | cons p rest ih =>
    obtain ⟨k₁, v₁⟩ := p
    simp only [dictGet] at h
    simp only [hasKey, List.any_cons, Bool.or_eq_true, beq_iff_eq]
    cases hr : dictGet rest k with
    | some r =>
      right
      have hs : (dictGet rest k).isSome := by simp [hr]
      simpa [hasKey] using ih hs
    | none =>
      rw [hr] at h
      by_cases hk : k₁ = k
      · left; exact hk
      · simp [hk] at h

/-- A successful key-membership test implies the last-binding lookup returns
some value. -/
theorem hasKey_dictGet {fields : List (String × Json)} {k : String}
    (h : hasKey fields k = true) : ∃ v, dictGet fields k = some v := by
  induction fields with
  | nil => simp [hasKey] at h
  | cons p rest ih =>
    obtain ⟨k₁, v₁⟩ := p
    simp only [hasKey, List.any_cons, Bool.or_eq_true, beq_iff_eq] at h
    simp only [dictGet]
    cases hr : dictGet rest k with
    | some r => exact ⟨r, rfl⟩
    | none =>
      rcases h with h | h
      · exact ⟨v₁, by simp [h]⟩
      · obtain ⟨v, hv⟩ := ih (by simpa [hasKey] using h)
        rw [hv] at hr
        cases hr

/-- An object body whose `type` field holds a string passes the endpoint's
validation guard and is handed to the dispatch chain on that string. -/
theorem a2a_endpoint_validated (fields : List (String × Json)) (t : String)
    (h : dictGet fields "type" = some (Json.str t)) :
    a2a_endpoint (some (Json.obj fields)) = dispatch fields t := by
  have hs : (dictGet fields "type").isSome := by simp [h]
  have hk := dictGet_hasKey hs
  simp [a2a_endpoint, pyContainsStr, hk, h]

/-- Responses of an agent-card request sequence are pointwise determined by
the initial card state: neither handler mutates the state. -/
theorem runCard_eq_map (st : Json) (ops : List CardOp) :
    runCard st ops = ops.map (cardResponse st) := by
  induction ops with
  | nil => rfl
  | cons op rest ih =>
    cases op <;> simp [runCard, get_agent_card, register_agent_card, cardResponse, ih]

/-- C1: for every request to `POST /api/a2a` whose body has type
`task_request` and `payload.stream` equal to `true`, the response streams
exactly 5 `task_progress` frames with `progress` values 0, 20, 40, 60, 80 in
that order, followed by exactly one `result` frame whose payload is
`result: done`, with no frame after it. -/
theorem taskRequest_stream_frames (fields pfs : List (String × Json))
    (ht : dictGet fields "type" = some (Json.str "task_request"))
    (hp : dictGet fields "payload" = some (Json.obj pfs))
    (hs : dictGet pfs "stream" = some (Json.bool true)) :
    a2a_endpoint (some (Json.obj fields)) =
      .ok (.stream "application/json"
        [pyStr (Json.obj [("type", Json.str "task_progress"), ("progress", Json.int 0)]) ++ "\n",
         pyStr (Json.obj [("type", Json.str "task_progress"), ("progress", Json.int 20)]) ++ "\n",
         pyStr (Json.obj [("type", Json.str "task_progress"), ("progress", Json.int 40)]) ++ "\n",
         pyStr (Json.obj [("type", Json.str "task_progress"), ("progress", Json.int 60)]) ++ "\n",
         pyStr (Json.obj [("type", Json.str "task_progress"), ("progress", Json.int 80)]) ++ "\n",
         resultDoneText ++ "\n"]) ∧
    jsonParse resultDoneText =
      some (Json.obj [("type", Json.str "result"), ("payload", Json.obj [("result", Json.str "done")])]) := by
  constructor
  · rw [a2a_endpoint_validated fields "task_request" ht]
    simp only [dispatch, hp, Option.getD_some, if_pos rfl, hs]
    rfl
  · rfl

/-- C1 witness: a concrete streaming `task_request` envelope realizing the
hypotheses of `taskRequest_stream_frames`. -/
theorem taskRequest_stream_frames_witness :
    a2a_endpoint (some (Json.obj
        [("type", Json.str "task_request"), ("payload", Json.obj [("stream", Json.bool true)])])) =
      .ok (.stream "application/json"
        [pyStr (Json.obj [("type", Json.str "task_progress"), ("progress", Json.int 0)]) ++ "\n",
         pyStr (Json.obj [("type", Json.str "task_progress"), ("progress", Json.int 20)]) ++ "\n",
         pyStr (Json.obj [("type", Json.str "task_progress"), ("progress", Json.int 40)]) ++ "\n",
         pyStr (Json.obj [("type", Json.str "task_progress"), ("progress", Json.int 60)]) ++ "\n",
         pyStr (Json.obj [("type", Json.str "task_progress"), ("progress", Json.int 80)]) ++ "\n",
         resultDoneText ++ "\n"]) ∧
    jsonParse resultDoneText =
      some (Json.obj [("type", Json.str "result"), ("payload", Json.obj [("result", Json.str "done")])]) :=
  taskRequest_stream_frames
    [("type", Json.str "task_request"), ("payload", Json.obj [("stream", Json.bool true)])]
    [("stream", Json.bool true)] rfl rfl rfl

/-- C2: for every request to `POST /api/a2a` whose body has type
`task_chunk`, regardless of the presence or value of `payload.stream` or of
any other field, the response streams exactly 3 `task_chunk` frames with
chunks `partial_0`, `partial_1`, `partial_2` in that order, followed by
exactly one terminal `result` frame whose payload is
`result: final from chunk`. -/
theorem taskChunk_stream_frames (fields : List (String × Json))
    (ht : dictGet fields "type" = some (Json.str "task_chunk")) :
    a2a_endpoint (some (Json.obj fields)) =
      .ok (.stream "application/json"
        [pyStr (Json.obj [("type", Json.str "task_chunk"), ("chunk", Json.str "partial_0")]) ++ "\n",
         pyStr (Json.obj [("type", Json.str "task_chunk"), ("chunk", Json.str "partial_1")]) ++ "\n",
         pyStr (Json.obj [("type", Json.str "task_chunk"), ("chunk", Json.str "partial_2")]) ++ "\n",
         pyStr (Json.obj [("type", Json.str "result"), ("payload", Json.obj [("result", Json.str "final from chunk")])]) ++ "\n"]) := by
  rw [a2a_endpoint_validated fields "task_chunk" ht]
  rfl

/-- C2 witness: a concrete `task_chunk` envelope with `stream` explicitly
`false`, still answered by the chunk stream. -/
theorem taskChunk_stream_frames_witness :
    a2a_endpoint (some (Json.obj
        [("type", Json.str "task_chunk"), ("payload", Json.obj [("stream", Json.bool false)])])) =
      .ok (.stream "application/json"
        [pyStr (Json.obj [("type", Json.str "task_chunk"), ("chunk", Json.str "partial_0")]) ++ "\n",
         pyStr (Json.obj [("type", Json.str "task_chunk"), ("chunk", Json.str "partial_1")]) ++ "\n",
         pyStr (Json.obj [("type", Json.str "task_chunk"), ("chunk", Json.str "partial_2")]) ++ "\n",
         pyStr (Json.obj [("type", Json.str "result"), ("payload", Json.obj [("result", Json.str "final from chunk")])]) ++ "\n"]) :=
  taskChunk_stream_frames
    [("type", Json.str "task_chunk"), ("payload", Json.obj [("stream", Json.bool false)])] rfl

/-- C3: for every validated envelope whose type matches no earlier routing
rule — including type `task_request` when `payload.stream` is absent or
`false` — the response is the single immediate object with `status: ok`, the
envelope's type, and the full original envelope under `echo`. -/
theorem default_echo_response (fields : List (String × Json)) (t : String)
    (ht : dictGet fields "type" = some (Json.str t))
    (hchunk : t ≠ "task_chunk") (hevent : t ≠ "agent_event")
    (hreq : t = "task_request" →
      ∃ pfs, (dictGet fields "payload").getD (Json.obj []) = Json.obj pfs ∧
        (dictGet pfs "stream" = none ∨ dictGet pfs "stream" = some (Json.bool false))) :
    a2a_endpoint (some (Json.obj fields)) =
      .ok (.json 200 (Json.obj
        [("status", Json.str "ok"), ("type", Json.str t), ("echo", Json.obj fields)])) := by
  rw [a2a_endpoint_validated fields t ht]
  by_cases h : t = "task_request"
  · obtain ⟨pfs, hpfs, hstream⟩ := hreq h
    subst h
    rcases hstream with h0 | h0 <;>
      simp [dispatch, hpfs, h0, truthy]
  · simp [dispatch, h, hchunk, hevent]

/-- C3 witness: a `ping` envelope is echoed. -/
theorem default_echo_response_witness :
    a2a_endpoint (some (Json.obj [("type", Json.str "ping"), ("payload", Json.obj [])])) =
      .ok (.json 200 (Json.obj
        [("status", Json.str "ok"), ("type", Json.str "ping"),
         ("echo", Json.obj [("type", Json.str "ping"), ("payload", Json.obj [])])])) :=
  default_echo_response [("type", Json.str "ping"), ("payload", Json.obj [])] "ping"
    rfl (by decide) (by decide) (fun h => absurd h (by decide))

/-- C4 counterexample: the parsed body `5` has no `type` field, yet the
endpoint does not answer with the 400 contract: the membership test
`"type" not in body` raises `TypeError` on an integer body, which surfaces
as an unhandled exception rather than the unified 400 response. -/
theorem nonObject_body_raises_typeError :
    a2a_endpoint (some (Json.int 5)) = .error .typeError := rfl

/-- C4 amended: for every parsed request body that is a JSON object in which
the `type` field is absent, null, or not a string, the endpoint returns
exactly the 400 response with the `Missing or invalid type field` error body,
before any dispatch logic and regardless of every other field of the body. -/
theorem object_missingType_400 (fields : List (String × Json))
    (h : typeFieldIsString fields = false) :
    a2a_endpoint (some (Json.obj fields)) = .ok (.json 400 missingTypeError) := by
  unfold a2a_endpoint
  cases hk : hasKey fields "type" with
  | false => simp [pyContainsStr, hk]
  | true =>
    obtain ⟨v, hv⟩ := hasKey_dictGet hk
    simp only [pyContainsStr, hk, hv, Option.getD_some]
    unfold typeFieldIsString at h
    rw [hv] at h
    cases v <;> simp_all

/-- C4 amended witness: an object body with a null `type` and other
malformed fields surfaces only the unified type error. -/
theorem object_missingType_400_witness :
    typeFieldIsString [("type", Json.null), ("payload", Json.int 7)] = false ∧
    a2a_endpoint (some (Json.obj [("type", Json.null), ("payload", Json.int 7)])) =
      .ok (.json 400 missingTypeError) :=
  ⟨rfl, object_missingType_400 [("type", Json.null), ("payload", Json.int 7)] rfl⟩

/-- C5: when the request body cannot be parsed as JSON (the `request.json()`
call raises), the endpoint returns exactly the 400 response with the
`Invalid JSON payload` error body, and no dispatch occurs. -/
theorem invalidJson_400 :
    a2a_endpoint none = .ok (.json 400 invalidJsonError) := rfl

/-- C6 counterexample: the envelope with type `task_request` and the
non-mapping payload `"x"` passes validation (its type is a string) but the
dispatcher raises `AttributeError` on `payload.get("stream", False)` instead
of producing a response. -/
theorem taskRequest_nonMapping_payload_raises :
    a2a_endpoint (some (Json.obj [("type", Json.str "task_request"), ("payload", Json.str "x")])) =
      .error .attributeError := rfl

/-- C6 amended: every envelope that passes validation reaches exactly one
handler branch and produces a response rather than an exception, provided
that when its type is `task_request` the `payload` field, after the
empty-mapping default, is a mapping; with a non-mapping payload and type
`task_request` the dispatcher raises. Sender, recipient and all other fields
may have any shape. -/
theorem dispatch_total_on_mapping_payload (fields : List (String × Json)) (t : String)
    (ht : dictGet fields "type" = some (Json.str t))
    (hreq : t = "task_request" →
      ∃ pfs, (dictGet fields "payload").getD (Json.obj []) = Json.obj pfs) :
    ∃ r, a2a_endpoint (some (Json.obj fields)) = Except.ok r := by
  rw [a2a_endpoint_validated fields t ht]
  by_cases h : t = "task_request"
  · obtain ⟨pfs, hpfs⟩ := hreq h
    subst h
    cases htr : truthy ((dictGet pfs "stream").getD (Json.bool false))
    · exact ⟨A2AResponse.json 200 (Json.obj
        [("status", Json.str "ok"), ("type", Json.str "task_request"), ("echo", Json.obj fields)]),
        by simp [dispatch, hpfs, htr]⟩
    · exact ⟨A2AResponse.stream "application/json" stream_task_progress,
        by simp [dispatch, hpfs, htr]⟩
  · by_cases h1 : t = "task_chunk"
    · exact ⟨A2AResponse.stream "application/json" chunk_stream,
        by simp [dispatch, h, h1]⟩
    · by_cases h2 : t = "agent_event"
      · exact ⟨A2AResponse.json 200 (Json.obj
          [("status", Json.str "ok"), ("type", Json.str "agent_event"),
           ("event", (dictGet fields "payload").getD (Json.obj []))]),
          by simp [dispatch, h, h1, h2]⟩
      · exact ⟨A2AResponse.json 200 (Json.obj
          [("status", Json.str "ok"), ("type", Json.str t), ("echo", Json.obj fields)]),
          by simp [dispatch, h, h1, h2]⟩

/-- C6 amended witness: an envelope with an unknown type, a non-mapping
sender and a mapping payload is answered without an exception. -/
theorem dispatch_total_on_mapping_payload_witness :
    ∃ r, a2a_endpoint (some (Json.obj
      [("type", Json.str "ping"), ("sender", Json.int 3), ("payload", Json.arr [])])) =
        Except.ok r :=
  dispatch_total_on_mapping_payload
    [("type", Json.str "ping"), ("sender", Json.int 3), ("payload", Json.arr [])] "ping"
    rfl (fun h => absurd h (by decide))

/-- C7 (at the failing input): the streaming `task_request` envelope is
answered with the `stream_task_progress` lines, whose first line is the
Python `str` rendering of the progress dict — single-quoted, hence not a
well-formed JSON text, let alone a JSON object — and likewise for the first
`task_chunk` line; only the raw terminal result literal is well-formed JSON.
This refutes the spec sentence that every emitted frame is a well-formed
JSON object on its own line. -/
theorem progress_frames_not_wellformed_json :
    a2a_endpoint (some (Json.obj
        [("type", Json.str "task_request"), ("payload", Json.obj [("stream", Json.bool true)])])) =
      .ok (.stream "application/json" stream_task_progress) ∧
    stream_task_progress.head? =
      some (pyStr (Json.obj [("type", Json.str "task_progress"), ("progress", Json.int 0)]) ++ "\n") ∧
    jsonParse (pyStr (Json.obj [("type", Json.str "task_progress"), ("progress", Json.int 0)])) = none ∧
    isJsonObjText (pyStr (Json.obj [("type", Json.str "task_progress"), ("progress", Json.int 0)])) = false ∧
    chunk_stream.head? =
      some (pyStr (Json.obj [("type", Json.str "task_chunk"), ("chunk", Json.str "partial_0")]) ++ "\n") ∧
    isJsonObjText (pyStr (Json.obj [("type", Json.str "task_chunk"), ("chunk", Json.str "partial_0")])) = false ∧
    isJsonObjText resultDoneText = true :=
  ⟨rfl, rfl, rfl, rfl, rfl, rfl, rfl⟩

/-- C8: for every envelope with type `agent_event`, the response is the
single immediate object with `status: ok`, type `agent_event`, and the
envelope's payload — defaulted to the empty mapping when absent — under
`event`. -/
theorem agentEvent_ack_response (fields : List (String × Json))
    (ht : dictGet fields "type" = some (Json.str "agent_event")) :
    a2a_endpoint (some (Json.obj fields)) =
      .ok (.json 200 (Json.obj
        [("status", Json.str "ok"), ("type", Json.str "agent_event"),
         ("event", (dictGet fields "payload").getD (Json.obj []))])) := by
  rw [a2a_endpoint_validated fields "agent_event" ht]
  rfl

/-- C8 witness: a concrete `agent_event` envelope is acknowledged with its
payload under `event`. -/
theorem agentEvent_ack_response_witness :
    a2a_endpoint (some (Json.obj
        [("type", Json.str "agent_event"), ("payload", Json.obj [("event_id", Json.str "e1")])])) =
      .ok (.json 200 (Json.obj
        [("status", Json.str "ok"), ("type", Json.str "agent_event"),
         ("event", (dictGet [("type", Json.str "agent_event"),
            ("payload", Json.obj [("event_id", Json.str "e1")])] "payload").getD (Json.obj []))])) :=
  agentEvent_ack_response
    [("type", Json.str "agent_event"), ("payload", Json.obj [("event_id", Json.str "e1")])] rfl

/-- C9 counterexample: a body whose `type` is the empty string is not
rejected: it passes the validation guard (the empty string satisfies
`isinstance(..., str)`) and is dispatched to the echo handler with a 200
response. -/
theorem emptyType_not_rejected :
    a2a_endpoint (some (Json.obj [("type", Json.str "")])) =
      .ok (.json 200 (Json.obj
        [("status", Json.str "ok"), ("type", Json.str ""),
         ("echo", Json.obj [("type", Json.str "")])])) := rfl

/-- C9 amended: every envelope that passes validation has a `type` field
holding a string, which may be empty: a body whose type is the empty string
passes validation and is dispatched — reaching the catch-all echo handler —
rather than being rejected as a validation failure. -/
theorem emptyType_passes_validation (fields : List (String × Json))
    (ht : dictGet fields "type" = some (Json.str "")) :
    a2a_endpoint (some (Json.obj fields)) =
      .ok (.json 200 (Json.obj
        [("status", Json.str "ok"), ("type", Json.str ""), ("echo", Json.obj fields)])) := by
  rw [a2a_endpoint_validated fields "" ht]
  rfl

/-- C9 amended witness: an envelope with an empty type and another field is
echoed with a 200 response. -/
theorem emptyType_passes_validation_witness :
    a2a_endpoint (some (Json.obj [("type", Json.str ""), ("sender", Json.str "a")])) =
      .ok (.json 200 (Json.obj
        [("status", Json.str "ok"), ("type", Json.str ""),
         ("echo", Json.obj [("type", Json.str ""), ("sender", Json.str "a")])])) :=
  emptyType_passes_validation [("type", Json.str ""), ("sender", Json.str "a")] rfl

/-- C10: in any sequence of agent-card requests starting from the
process-owned card, every `GET /api/agent_card` answers with the very same
card — also byte-identically under serialization — and every
`POST /api/agent_card` answers with `status: ok` and the echoed submitted
card, mutating nothing: the response at each position depends only on the
initial card. -/
theorem agentCard_get_idempotent_post_pure (ops : List CardOp) (i : Nat) :
    (ops[i]? = some CardOp.get →
      (runCard AGENT_CARD ops)[i]? = some AGENT_CARD ∧
      ((runCard AGENT_CARD ops)[i]?).map serializeJson = some (serializeJson AGENT_CARD)) ∧
    (∀ c, ops[i]? = some (CardOp.post c) →
      (runCard AGENT_CARD ops)[i]? =
        some (Json.obj [("status", Json.str "ok"), ("card", c)])) := by
  constructor
  · intro h
    rw [runCard_eq_map, List.getElem?_map, h]
    exact ⟨rfl, rfl⟩
  · intro c h
    rw [runCard_eq_map, List.getElem?_map, h]
    rfl

/-- C10 witness: after a `GET`, a `POST`, and another `GET`, the second `GET`
still answers with the process card and the `POST` answered with the echoed
body. -/
theorem agentCard_get_idempotent_post_pure_witness :
    (runCard AGENT_CARD [CardOp.get, CardOp.post (Json.obj []), CardOp.get])[2]? =
      some AGENT_CARD ∧
    (runCard AGENT_CARD [CardOp.get, CardOp.post (Json.obj []), CardOp.get])[1]? =
      some (Json.obj [("status", Json.str "ok"), ("card", Json.obj [])]) :=
  ⟨((agentCard_get_idempotent_post_pure [CardOp.get, CardOp.post (Json.obj []), CardOp.get] 2).1
      rfl).1,
   (agentCard_get_idempotent_post_pure [CardOp.get, CardOp.post (Json.obj []), CardOp.get] 1).2
      (Json.obj []) rfl⟩

end A2A
